import Mathlib

/-!
Verification of the rag_multi frontend session/auth client.

This file gives a shallow embedding of the session manager implemented in
`MULTI-AGENTS/frontend/src/auth.tsx` (the `AuthProvider` component: token and
user state, the `useEffect` identity-refresh reaction, `login` and `logout`),
and of the chat/upload panels in the main App component (`ChatPanel.send`,
`DataPanel.upload`).

The React semantics is embedded as follows: component state becomes a record,
a `useState` setter becomes a functional update, and the `useEffect` with
dependency array `[token]` is re-run whenever the token value changed (React
compares dependencies with `Object.is`, i.e. value equality on strings, and
skips the effect when the value is unchanged).  Each operation additionally
returns the list of observable side effects (HTTP requests and updates of the
shared client's authorization header), in the order the code issues them.
-/

namespace RagMulti

/-- Identity record returned by the identity endpoint (`User` in auth.tsx). -/
structure User where
  username : String
  name : String
  email : String
  role : String
deriving DecidableEq, Repr

/-- Wire formats of request bodies sent by the frontend. -/
inductive Body
  | form (fields : List (String × String))
  | json (fields : List (String × String))
  | multipart (fields : List (String × String))
deriving DecidableEq, Repr

/-- Observable side effects of the client, in program order: an update of the
shared HTTP client's default authorization (`setAuth`), a GET request, or a
POST request.  Requests record the authorization value they carry. -/
inductive Event
  | setAuthEv (tok : Option String)
  | get (path : String) (auth : Option String)
  | post (path : String) (body : Body) (auth : Option String)
deriving DecidableEq, Repr

/-- The external backend, as observed by the client: the token endpoint
(`POST /auth/login`, `some accessToken` on success, `none` on rejection) and
the identity endpoint (`GET /auth/me`, `some user` on success, `none` on
401/invalid token). -/
structure Backend where
  loginEp : String → String → Option String
  me : String → Option User

/-- Session state of `AuthProvider`: the `token` and `user` React states, the
durable storage slot (`localStorage` key `token`), and the shared HTTP
client's current authorization value. -/
structure SessionState where
  token : Option String
  user : Option User
  storage : Option String
  apiAuth : Option String
deriving DecidableEq, Repr

/-- Modelled from the spec: the `api.ts` module (the shared HTTP client `api`
and its `setAuth` helper) is not among the provided sources.  Per the spec,
`setAuth` mirrors the Credential into the shared HTTP client configuration
(the default `Authorization` header), which every subsequent request carries.
Here it sets the `apiAuth` field, and request events record `apiAuth` at the
moment they are issued. -/
def setAuth (s : SessionState) (tok : Option String) : SessionState :=
  { s with apiAuth := tok }

/-- The body of `logout` in auth.tsx line 26:
`localStorage.removeItem('token'); setToken(null); setUser(null)`.
Clearing `token` may re-trigger the effect; that re-run is modelled
separately in `logoutTr`. -/
def logoutRaw (s : SessionState) : SessionState :=
  { s with storage := none, token := none, user := none }

/-- One run of the `useEffect` body (auth.tsx line 19):
`setAuth(token || null); if (token) api.get('/auth/me').then(r => setUser(r.data)).catch(() => logout())`.
Returns the new state and the events issued, in order. -/
def effectTr (b : Backend) (s : SessionState) : SessionState × List Event :=
  let s1 := setAuth s s.token
  match s.token with
  | none => (s1, [Event.setAuthEv s.token])
  | some t =>
    match b.me t with
    | some u => ({ s1 with user := some u },
        [Event.setAuthEv s.token, Event.get "/auth/me" s1.apiAuth])
    | none => (logoutRaw s1,
        [Event.setAuthEv s.token, Event.get "/auth/me" s1.apiAuth])

/-- Runs the effect and, when the effect itself changed the token (the
`.catch(() => logout())` path), the re-run it triggers.  The token can only
change to `none`, on which the effect is stable, so two runs reach the fixed
point. -/
def runEffectsTr (b : Backend) (s : SessionState) : SessionState × List Event :=
  let r1 := effectTr b s
  if r1.1.token = s.token then r1
  else
    let r2 := effectTr b r1.1
    (r2.1, r1.2 ++ r2.2)

/-- Initial state at mount (auth.tsx lines 16-17): `token` is read from
durable storage, `user` starts `null`; the shared client's authorization is
not yet set. -/
def startState (st : Option String) : SessionState :=
  { token := st, user := none, storage := st, apiAuth := none }

/-- Process start: mount with the stored token, then the effect runs. -/
def startupTr (b : Backend) (st : Option String) : SessionState × List Event :=
  runEffectsTr b (startState st)

/-- Result of a `login` call: final state, events issued, and `some ()` when
the call threw (`AuthError`). -/
structure LoginResult where
  state : SessionState
  trace : List Event
  err : Option Unit
deriving DecidableEq, Repr

/-- The `login` function (auth.tsx lines 21-25):
`await api.post('/auth/login', new URLSearchParams({username, password}))`,
then on success `localStorage.setItem('token', data.access_token)` and
`setToken(data.access_token)`, which re-triggers the effect when the token
value changed.  A rejected POST throws before any mutation. -/
def loginTr (b : Backend) (s : SessionState) (u p : String) : LoginResult :=
  let postEv := Event.post "/auth/login"
    (Body.form [("username", u), ("password", p)]) s.apiAuth
  match b.loginEp u p with
  | none => ⟨s, [postEv], some ()⟩
  | some tok =>
    let s1 := { s with storage := some tok, token := some tok }
    if s.token = some tok then ⟨s1, [postEv], none⟩
    else
      let r := runEffectsTr b s1
      ⟨r.1, postEv :: r.2, none⟩

/-- A `logout` call: the body of `logout`, then the effect re-run that
`setToken(null)` triggers when the token actually changed. -/
def logoutTr (b : Backend) (s : SessionState) : SessionState × List Event :=
  if s.token = none then (logoutRaw s, [])
  else runEffectsTr b (logoutRaw s)

/-- Session states reachable by the client: a settled startup state, followed
by any sequence of settled `login` and `logout` calls. -/
inductive Reachable (b : Backend) : SessionState → Prop
  | start (st : Option String) : Reachable b (startupTr b st).1
  | loginStep (s : SessionState) (u p : String) :
      Reachable b s → Reachable b (loginTr b s u p).state
  | logoutStep (s : SessionState) :
      Reachable b s → Reachable b (logoutTr b s).1

/-- Consistency of a settled session state with the backend: the shared
client's authorization and the durable storage mirror the token, and the user
is exactly the identity the backend returns for the token (none when logged
out). -/
def Inv (b : Backend) (s : SessionState) : Prop :=
  s.apiAuth = s.token ∧ s.storage = s.token ∧
  (s.token = none → s.user = none) ∧
  (∀ t, s.token = some t → s.user = b.me t ∧ (b.me t).isSome)

/-- Checks that every request in the event list carries the authorization
most recently installed by a preceding `setAuth`, starting from `cur`. -/
def requestsAuthOk : Option String → List Event → Bool
  | _, [] => true
  | _, Event.setAuthEv t :: rest => requestsAuthOk t rest
  | cur, Event.get _ a :: rest =>
      if a = cur then requestsAuthOk cur rest else false
  | cur, Event.post _ _ a :: rest =>
      if a = cur then requestsAuthOk cur rest else false

/-- True exactly on events that are network requests. -/
def isNetworkEvent : Event → Bool
  | Event.setAuthEv _ => false
  | Event.get _ _ => true
  | Event.post _ _ _ => true

/-- True unless the event is a POST whose body is not form-encoded. -/
def postsAreForm : Event → Bool
  | Event.post _ (Body.form _) _ => true
  | Event.post _ _ _ => false
  | _ => true

/-- Test backend for concrete evaluations: `alice`/`pw1` is the only accepted
credential pair, issuing token `tok1`; only `tok1` is accepted by the
identity endpoint. -/
def bTest : Backend :=
  { loginEp := fun u p => if u = "alice" ∧ p = "pw1" then some "tok1" else none
    me := fun t => if t = "tok1" then some ⟨"alice", "Alice", "alice@example.com", "admin"⟩ else none }

/-- The identity of the test backend's only user. -/
def aliceUser : User := ⟨"alice", "Alice", "alice@example.com", "admin"⟩

theorem runEffectsTr_none (b : Backend) (s : SessionState) (h : s.token = none) :
    runEffectsTr b s = ({ s with apiAuth := none }, [Event.setAuthEv none]) := by
  simp [runEffectsTr, effectTr, setAuth, h]

theorem runEffectsTr_ok (b : Backend) (s : SessionState) (t : String) (u : User)
    (ht : s.token = some t) (hme : b.me t = some u) :
    runEffectsTr b s = ({ s with apiAuth := some t, user := some u },
      [Event.setAuthEv (some t), Event.get "/auth/me" (some t)]) := by
  simp [runEffectsTr, effectTr, setAuth, ht, hme]

theorem runEffectsTr_fail (b : Backend) (s : SessionState) (t : String)
    (ht : s.token = some t) (hme : b.me t = none) :
    runEffectsTr b s = (⟨none, none, none, none⟩,
      [Event.setAuthEv (some t), Event.get "/auth/me" (some t),
       Event.setAuthEv none]) := by
  simp [runEffectsTr, effectTr, setAuth, ht, hme, logoutRaw]

theorem loginTr_rejected (b : Backend) (s : SessionState) (u p : String)
    (h : b.loginEp u p = none) :
    loginTr b s u p = ⟨s, [Event.post "/auth/login"
      (Body.form [("username", u), ("password", p)]) s.apiAuth], some ()⟩ := by
  simp [loginTr, h]

theorem loginTr_ok_bail (b : Backend) (s : SessionState) (u p tok : String)
    (h : b.loginEp u p = some tok) (ht : s.token = some tok) :
    loginTr b s u p = ⟨{ s with storage := some tok, token := some tok },
      [Event.post "/auth/login"
        (Body.form [("username", u), ("password", p)]) s.apiAuth], none⟩ := by
  simp [loginTr, h, ht]

theorem loginTr_ok_new (b : Backend) (s : SessionState) (u p tok : String)
    (h : b.loginEp u p = some tok) (ht : ¬ s.token = some tok) :
    loginTr b s u p =
      ⟨(runEffectsTr b { s with storage := some tok, token := some tok }).1,
       Event.post "/auth/login"
         (Body.form [("username", u), ("password", p)]) s.apiAuth
         :: (runEffectsTr b { s with storage := some tok, token := some tok }).2,
       none⟩ := by
  simp [loginTr, h, ht]

theorem logoutTr_none (b : Backend) (s : SessionState) (h : s.token = none) :
    logoutTr b s = (logoutRaw s, []) := by
  simp [logoutTr, h]

theorem logoutTr_some (b : Backend) (s : SessionState) (h : ¬ s.token = none) :
    logoutTr b s = (⟨none, none, none, none⟩, [Event.setAuthEv none]) := by
  have h1 : (logoutRaw s).token = none := rfl
  rw [logoutTr, if_neg h, runEffectsTr_none b (logoutRaw s) h1]
  rfl

theorem inv_runEffectsTr (b : Backend) (s : SessionState)
    (hst : s.storage = s.token) (hun : s.token = none → s.user = none) :
    Inv b (runEffectsTr b s).1 := by
  cases ht : s.token with
  | none =>
    rw [runEffectsTr_none b s ht]
    refine ⟨ht.symm, hst, fun _ => hun ht, fun t h => ?_⟩
    rw [ht] at h
    exact Option.noConfusion h
  | some t =>
    cases hme : b.me t with
    | none =>
      rw [runEffectsTr_fail b s t ht hme]
      exact ⟨rfl, rfl, fun _ => rfl, fun t' h => Option.noConfusion h⟩
    | some u =>
      rw [runEffectsTr_ok b s t u ht hme]
      refine ⟨ht.symm, hst, fun hc => ?_, fun t' h => ?_⟩
      · rw [ht] at hc
        exact Option.noConfusion hc
      · rw [ht] at h
        injection h with h2
        subst h2
        exact ⟨hme.symm, by rw [hme]; rfl⟩

theorem reachable_inv (b : Backend) (s : SessionState)
    (h : Reachable b s) : Inv b s := by
  induction h with
  | start st =>
    exact inv_runEffectsTr b (startState st) rfl (fun _ => rfl)
  | loginStep s u p hr ih =>
    obtain ⟨ha, hst, hn, hs⟩ := ih
    cases hl : b.loginEp u p with
    | none => rw [loginTr_rejected b s u p hl]; exact ⟨ha, hst, hn, hs⟩
    | some tok =>
      by_cases htok : s.token = some tok
      · rw [loginTr_ok_bail b s u p tok hl htok]
        refine ⟨ha.trans htok, rfl, fun hc => Option.noConfusion hc, fun t' h => ?_⟩
        injection h with h2
        subst h2
        exact hs tok htok
      · rw [loginTr_ok_new b s u p tok hl htok]
        exact inv_runEffectsTr b _ rfl (fun hc => Option.noConfusion hc)
  | logoutStep s hr ih =>
    obtain ⟨ha, hst, hn, hs⟩ := ih
    by_cases htok : s.token = none
    · rw [logoutTr_none b s htok]
      exact ⟨ha.trans htok, rfl, fun _ => rfl, fun t h => Option.noConfusion h⟩
    · rw [logoutTr_some b s htok]
      exact ⟨rfl, rfl, fun _ => rfl, fun t h => Option.noConfusion h⟩

/-- Role of a chat message (`Msg.role` in the App component). -/
inductive Role
  | user
  | assistant
deriving DecidableEq, Repr

/-- A chat message (`Msg` in the App component). -/
structure Msg where
  role : Role
  text : String
deriving DecidableEq, Repr

/-- State of `ChatPanel`: the input text `q`, the `loading` flag and the
message list `msgs`. -/
structure ChatState where
  q : String
  loading : Bool
  msgs : List Msg
deriving DecidableEq, Repr

/-- The `send` function of `ChatPanel` (App component):
returns without any change when `q.trim()` is empty; otherwise appends the
user message, clears the input, posts `(agent, question)` to `/chat/ask`, and
appends the assistant answer (or the error text built from the response
detail, with a fallback message).  `loading` is set during the request and
reset in the `finally` block, so it is false in the settled state.  The
backend `ask` returns the answer or the optional error detail. -/
def send (ask : String → String → Except (Option String) String)
    (auth : Option String) (agent : String) (s : ChatState) :
    ChatState × List Event :=
  if s.q.trim = "" then (s, [])
  else
    let userMsg : Msg := ⟨Role.user, s.q⟩
    let ev := Event.post "/chat/ask"
      (Body.json [("agent", agent), ("question", userMsg.text)]) auth
    match ask agent userMsg.text with
    | Except.ok ans =>
        (⟨"", false, s.msgs ++ [userMsg, ⟨Role.assistant, ans⟩]⟩, [ev])
    | Except.error d =>
        (⟨"", false, s.msgs ++ [userMsg,
          ⟨Role.assistant, "Error: " ++ d.getD "no se pudo obtener respuesta"⟩]⟩,
         [ev])

/-- State of `DataPanel`: the selected file (by name; `null` when none is
selected) and the status text. -/
structure DataState where
  file : Option String
  status : String
deriving DecidableEq, Repr

/-- The `upload` function of `DataPanel` (App component): returns without any
change when no file is selected; otherwise posts the multipart form
`(agent, file)` to `/vs/upload` and sets the status text from the response
(or from the error detail, with a fallback message).  The backend `uploadEp`
returns `(filename, vectorStore)` or the optional error detail. -/
def upload (uploadEp : String → String → Except (Option String) (String × String))
    (auth : Option String) (agent : String) (s : DataState) :
    DataState × List Event :=
  match s.file with
  | none => (s, [])
  | some f =>
    let ev := Event.post "/vs/upload"
      (Body.multipart [("agent", agent), ("file", f)]) auth
    match uploadEp agent f with
    | Except.ok fv =>
        ({ s with status := "OK: " ++ fv.1 ++ " → " ++ fv.2 }, [ev])
    | Except.error d =>
        ({ s with status := "Error: " ++ d.getD "falló el upload" }, [ev])

/-- C1: in every reachable session state the Identity (user) is non-null only
if the Credential (token) is non-null; and whenever the identity-fetch
triggered by a non-null Credential fails, the settled effect run transitions
the session to logged-out with Credential, Identity, durable storage and the
client authorization all cleared — never a stale Identity paired with an
invalid Credential. -/
theorem c1_identity_requires_credential_and_failed_fetch_logs_out (b : Backend) :
    (∀ s, Reachable b s → s.user.isSome → s.token.isSome) ∧
    (∀ s t, s.token = some t → b.me t = none →
      (runEffectsTr b s).1 = ⟨none, none, none, none⟩) := by
  constructor
  · intro s hr hu
    obtain ⟨ha, hst, hn, hs⟩ := reachable_inv b s hr
    cases htk : s.token with
    | some t => rfl
    | none =>
      rw [hn htk] at hu
      simp at hu
  · intro s t ht hme
    rw [runEffectsTr_fail b s t ht hme]

/-- Witness for C1: the startup state for stored token `tok1` is reachable
with a non-null token, and a state holding the rejected token `abc` settles
to the all-cleared state. -/
theorem c1_witness :
    (startupTr bTest (some "tok1")).1.token.isSome = true ∧
    (runEffectsTr bTest (startState (some "abc"))).1 = ⟨none, none, none, none⟩ :=
  ⟨(c1_identity_requires_credential_and_failed_fetch_logs_out bTest).1
      (startupTr bTest (some "tok1")).1 (Reachable.start (some "tok1")) (by decide),
   (c1_identity_requires_credential_and_failed_fetch_logs_out bTest).2
      (startState (some "abc")) "abc" rfl (by decide)⟩

/-- C2: every settled run of the credential-change effect first mirrors the
new Credential into the shared HTTP client (the `setAuth` update is the head
of the event trace, before any request), every request in the trace carries
the authorization most recently installed — regardless of what the client
carried before — and when the new Credential is non-null the identity
refresh itself is issued carrying that Credential. -/
theorem c2_setAuth_precedes_dependent_requests (b : Backend) (s : SessionState)
    (c : Option String) :
    (runEffectsTr b s).2.head? = some (Event.setAuthEv s.token) ∧
    requestsAuthOk c (runEffectsTr b s).2 = true ∧
    (∀ t, s.token = some t →
      Event.get "/auth/me" (some t) ∈ (runEffectsTr b s).2) := by
  cases ht : s.token with
  | none =>
    rw [runEffectsTr_none b s ht]
    exact ⟨rfl, rfl, fun t h => Option.noConfusion h⟩
  | some t =>
    cases hme : b.me t with
    | some u =>
      rw [runEffectsTr_ok b s t u ht hme]
      refine ⟨rfl, ?_, ?_⟩
      · simp [requestsAuthOk]
      · intro t' h
        injection h with h2
        subst h2
        simp
    | none =>
      rw [runEffectsTr_fail b s t ht hme]
      refine ⟨rfl, ?_, ?_⟩
      · simp [requestsAuthOk]
      · intro t' h
        injection h with h2
        subst h2
        simp

/-- Witness for C2: with the test backend and the startup state holding
token `tok1`, the identity refresh carries `tok1` and the trace is
authorization-consistent from any starting header value. -/
theorem c2_witness :
    Event.get "/auth/me" (some "tok1")
      ∈ (runEffectsTr bTest (startState (some "tok1"))).2 ∧
    requestsAuthOk (some "stale") (runEffectsTr bTest (startState (some "tok1"))).2
      = true :=
  ⟨(c2_setAuth_precedes_dependent_requests bTest (startState (some "tok1"))
      (some "stale")).2.2 "tok1" rfl,
   (c2_setAuth_precedes_dependent_requests bTest (startState (some "tok1"))
      (some "stale")).2.1⟩

/-- C3: when the token endpoint rejects the credentials, `login` raises
`AuthError` to its caller and changes nothing: the resulting state is the
original one — in particular the in-memory token and the durable storage are
untouched, and a logged-out session stays logged out — and the only event
issued is the rejected POST itself. -/
theorem c3_login_rejected_raises_and_preserves_state (b : Backend)
    (s : SessionState) (u p : String) (hrej : b.loginEp u p = none) :
    (loginTr b s u p).err = some () ∧
    (loginTr b s u p).state = s ∧
    (loginTr b s u p).trace = [Event.post "/auth/login"
      (Body.form [("username", u), ("password", p)]) s.apiAuth] := by
  rw [loginTr_rejected b s u p hrej]
  exact ⟨rfl, rfl, rfl⟩

/-- Witness for C3: the test backend rejects `alice`/`wrong`; `login` errors
and the logged-out start state is returned unchanged. -/
theorem c3_witness :
    (loginTr bTest (startState none) "alice" "wrong").err = some () ∧
    (loginTr bTest (startState none) "alice" "wrong").state = startState none ∧
    (loginTr bTest (startState none) "alice" "wrong").trace
      = [Event.post "/auth/login"
          (Body.form [("username", "alice"), ("password", "wrong")])
          (startState none).apiAuth] :=
  c3_login_rejected_raises_and_preserves_state bTest (startState none)
    "alice" "wrong" (by decide)

/-- C4: from a logged-out session, when the backend accepts the credentials
and issues a token the identity endpoint accepts, `login` raises no error,
persists the token to durable storage, sets the in-memory Credential and the
shared client authorization to it, issues the triggered identity refresh
carrying the new token, and the session ends logged in with the Identity
equal to the identity endpoint's response. -/
theorem c4_login_accepted_ends_logged_in (b : Backend) (s : SessionState)
    (u p tok : String) (usr : User) (hout : s.token = none)
    (hacc : b.loginEp u p = some tok) (hme : b.me tok = some usr) :
    (loginTr b s u p).err = none ∧
    (loginTr b s u p).state = ⟨some tok, some usr, some tok, some tok⟩ ∧
    Event.get "/auth/me" (some tok) ∈ (loginTr b s u p).trace := by
  have hne : ¬ s.token = some tok := by
    rw [hout]
    exact fun h => Option.noConfusion h
  rw [loginTr_ok_new b s u p tok hacc hne,
    runEffectsTr_ok b { s with storage := some tok, token := some tok } tok usr
      rfl hme]
  refine ⟨rfl, rfl, ?_⟩
  simp

/-- Witness for C4: `alice`/`pw1` is accepted with token `tok1`, the refresh
is issued with `tok1`, and the session ends logged in as `aliceUser`. -/
theorem c4_witness :
    (loginTr bTest (startState none) "alice" "pw1").err = none ∧
    (loginTr bTest (startState none) "alice" "pw1").state
      = ⟨some "tok1", some aliceUser, some "tok1", some "tok1"⟩ ∧
    Event.get "/auth/me" (some "tok1")
      ∈ (loginTr bTest (startState none) "alice" "pw1").trace :=
  c4_login_accepted_ends_logged_in bTest (startState none) "alice" "pw1"
    "tok1" aliceUser rfl (by decide) (by decide)

/-- C5: when durable storage holds a token at process start, the startup path
performs an identity refresh carrying that token; if the identity endpoint
rejects it, the final state is logged out with the stale token removed from
storage (everything cleared); if it accepts, the final state is logged in
with the returned identity and the token still persisted. -/
theorem c5_restore_refreshes_and_clears_on_reject (b : Backend) (t : String) :
    Event.get "/auth/me" (some t) ∈ (startupTr b (some t)).2 ∧
    (b.me t = none → (startupTr b (some t)).1 = ⟨none, none, none, none⟩) ∧
    (∀ usr, b.me t = some usr →
      (startupTr b (some t)).1 = ⟨some t, some usr, some t, some t⟩) := by
  cases hme : b.me t with
  | none =>
    rw [startupTr, runEffectsTr_fail b (startState (some t)) t rfl hme]
    exact ⟨by simp, fun _ => rfl, fun usr h => Option.noConfusion h⟩
  | some u =>
    rw [startupTr, runEffectsTr_ok b (startState (some t)) t u rfl hme]
    refine ⟨by simp, fun hc => Option.noConfusion hc, fun usr h => ?_⟩
    injection h with h2
    subst h2
    rfl

/-- Witness for C5: restoring the rejected token `abc` settles to the
all-cleared state; restoring `tok1` settles to the logged-in state. -/
theorem c5_witness :
    (startupTr bTest (some "abc")).1 = ⟨none, none, none, none⟩ ∧
    (startupTr bTest (some "tok1")).1
      = ⟨some "tok1", some aliceUser, some "tok1", some "tok1"⟩ :=
  ⟨(c5_restore_refreshes_and_clears_on_reject bTest "abc").2.1 (by decide),
   (c5_restore_refreshes_and_clears_on_reject bTest "tok1").2.2 aliceUser
     (by decide)⟩

/-- C6: from every session state, `logout` yields a state with Credential and
Identity both null and the durable-storage key removed, issues no network
request, and is idempotent: a second `logout` leaves the state unchanged. -/
theorem c6_logout_clears_all_no_network_idempotent (b : Backend)
    (s : SessionState) :
    (logoutTr b s).1.token = none ∧ (logoutTr b s).1.user = none ∧
    (logoutTr b s).1.storage = none ∧
    (logoutTr b s).2.any isNetworkEvent = false ∧
    (logoutTr b (logoutTr b s).1).1 = (logoutTr b s).1 := by
  by_cases htok : s.token = none
  · rw [logoutTr_none b s htok]
    refine ⟨rfl, rfl, rfl, rfl, ?_⟩
    rw [logoutTr_none b (logoutRaw s) rfl]
    rfl
  · rw [logoutTr_some b s htok]
    refine ⟨rfl, rfl, rfl, rfl, ?_⟩
    rw [logoutTr_none b ⟨none, none, none, none⟩ rfl]
    rfl

/-- C7: every `login` call sends the credentials to the token endpoint
form-encoded: the first event issued is the POST to `/auth/login` whose body
is the URL-encoded `username`/`password` form, and no POST in the login trace
carries a body that is not form-encoded (in particular none is JSON). -/
theorem c7_login_sends_form_encoded (b : Backend) (s : SessionState)
    (u p : String) :
    (loginTr b s u p).trace.head? = some (Event.post "/auth/login"
      (Body.form [("username", u), ("password", p)]) s.apiAuth) ∧
    (loginTr b s u p).trace.all postsAreForm = true := by
  cases hl : b.loginEp u p with
  | none =>
    rw [loginTr_rejected b s u p hl]
    exact ⟨rfl, rfl⟩
  | some tok =>
    by_cases htok : s.token = some tok
    · rw [loginTr_ok_bail b s u p tok hl htok]
      exact ⟨rfl, rfl⟩
    · rw [loginTr_ok_new b s u p tok hl htok]
      refine ⟨rfl, ?_⟩
      cases hme : b.me tok with
      | some usr =>
        rw [runEffectsTr_ok b { s with storage := some tok, token := some tok }
          tok usr rfl hme]
        rfl
      | none =>
        rw [runEffectsTr_fail b { s with storage := some tok, token := some tok }
          tok rfl hme]
        rfl

/-- C8: at process start the Identity is always null, whatever durable
storage holds — only the token is restored — and the settled startup state
has a non-null Identity only as the result of a successful identity-endpoint
call for the stored token. -/
theorem c8_identity_null_at_start (b : Backend) (st : Option String) :
    (startState st).user = none ∧
    (∀ usr, (startupTr b st).1.user = some usr →
      ∃ t, st = some t ∧ b.me t = some usr) := by
  refine ⟨rfl, ?_⟩
  intro usr h
  cases st with
  | none =>
    rw [startupTr, runEffectsTr_none b (startState none) rfl] at h
    exact Option.noConfusion h
  | some t =>
    cases hme : b.me t with
    | none =>
      rw [startupTr, runEffectsTr_fail b (startState (some t)) t rfl hme] at h
      exact Option.noConfusion h
    | some u =>
      rw [startupTr, runEffectsTr_ok b (startState (some t)) t u rfl hme] at h
      refine ⟨t, rfl, ?_⟩
      rw [hme]
      exact h

/-- Witness for C8: the mount state for stored token `tok1` has no user, and
the settled startup user `aliceUser` is the identity endpoint's response for
`tok1`. -/
theorem c8_witness :
    (startState (some "tok1")).user = none ∧
    ∃ t, (some "tok1" : Option String) = some t ∧ bTest.me t = some aliceUser :=
  ⟨(c8_identity_null_at_start bTest (some "tok1")).1,
   (c8_identity_null_at_start bTest (some "tok1")).2 aliceUser (by decide)⟩

/-- Chat backend stub used for concrete evaluations: every question fails
with no detail. -/
def askStub : String → String → Except (Option String) String :=
  fun _ _ => Except.error none

/-- Upload backend stub used for concrete evaluations: every upload fails
with no detail. -/
def uploadStub : String → String → Except (Option String) (String × String) :=
  fun _ _ => Except.error none

/-- C9: when the current question is empty or consists only of whitespace,
`send` issues no request to the question-answering endpoint and the message
list, the input text and the loading flag are all unchanged. -/
theorem c9_send_blank_question_noop
    (ask : String → String → Except (Option String) String)
    (auth : Option String) (agent : String) (s : ChatState)
    (h : s.q.trim = "") :
    send ask auth agent s = (s, []) := by
  rw [send, if_pos h]

/-- Witness for C9: an empty question is a no-op for the chat panel. -/
theorem c9_witness :
    send askStub none "comercial" ⟨"", false, []⟩ = (⟨"", false, []⟩, []) :=
  c9_send_blank_question_noop askStub none "comercial" ⟨"", false, []⟩
    (by
      show ("" : String).trim = ""
      unfold String.trim Substring.trim
      unfold Substring.takeWhileAux Substring.takeRightWhileAux
      simp [String.toSubstring, String.endPos, String.utf8ByteSize,
        String.utf8ByteSize.go, Substring.toString, Substring.extract]
      rfl)

/-- C10: when no file is selected (the file handle is null), `upload` issues
no request to the upload endpoint and the status text (the whole panel
state) is unchanged. -/
theorem c10_upload_no_file_noop
    (uploadEp : String → String → Except (Option String) (String × String))
    (auth : Option String) (agent : String) (s : DataState)
    (h : s.file = none) :
    upload uploadEp auth agent s = (s, []) := by
  rw [upload, h]

/-- Witness for C10: with no file selected the data panel keeps its status
and issues nothing. -/
theorem c10_witness :
    upload uploadStub none "documental" ⟨none, "listo"⟩ = (⟨none, "listo"⟩, []) :=
  c10_upload_no_file_noop uploadStub none "documental" ⟨none, "listo"⟩ rfl

end RagMulti
